import Mathlib

/-!
Verification of the telegram-translator bot (`src/bot.py`) against its
natural-language specification.

The Python source is shallowly embedded: text is `List Char` (Python strings
are sequences of code points), fallible operations return `Option`, the two
external HTTP collaborators (the completion API and the chat platform) are
modelled as explicit oracle parameters, and module-level mutable state (the
consecutive-failure counter) is passed explicitly.
-/

set_option maxRecDepth 4000
set_option maxHeartbeats 1000000
set_option linter.unusedVariables false

/-! ## Python string primitives used by the source -/

/-- Whitespace characters removed by Python `str.strip()` (ASCII subset;
the source strings involved contain no exotic Unicode spaces). -/
def isPyWhitespace (c : Char) : Bool :=
  c = ' ' || c = '\t' || c = '\n' || c = '\r' || c = '\x0b' || c = '\x0c'

/-- Python `s.strip()`: drop leading and trailing whitespace. -/
def pyStrip (s : List Char) : List Char :=
  ((s.dropWhile isPyWhitespace).reverse.dropWhile isPyWhitespace).reverse

/-- Python `s.strip(set)`: drop leading and trailing characters from `set`. -/
def pyStripSet (set : List Char) (s : List Char) : List Char :=
  ((s.dropWhile (set.contains ·)).reverse.dropWhile (set.contains ·)).reverse

/-- Python `pat in s` for strings: `pat` occurs in `s` as a contiguous
substring. -/
def hasSubstr (pat : List Char) : List Char → Bool
  | [] => pat.isPrefixOf ([] : List Char)
  | c :: cs => pat.isPrefixOf (c :: cs) || hasSubstr pat cs

/-- Python `s.split(pat, 1)[1]` when `pat in s`: the part of `s` after the
first occurrence of `pat` (and `[]` when `pat` does not occur). -/
def afterFirst (pat : List Char) : List Char → List Char
  | [] => []
  | c :: cs => if pat.isPrefixOf (c :: cs) then (c :: cs).drop pat.length
               else afterFirst pat cs

/-! ## Language Hint Detector (`detect_language_hint`, bot.py lines 359-387) -/

/-- The fixed Tagalog keyword list of `detect_language_hint`
(bot.py lines 372-377). -/
def tagalog_keywords : List String :=
  ["ako", "ikaw", "siya", "kami", "kayo", "sila",
   "maganda", "salamat", "paalam", "mahal", "oo", "hindi",
   "kumusta", "mabuti", "pangalan", "ano", "saan", "kailan",
   "po", "opo", "hindi po", "sige", "tingnan", "maraming"]

/-- Embedding of `detect_language_hint` (bot.py lines 359-387).
Returns `some "zh"`, `some "tl"`, `some "ur"` or `none`, exactly as the
source returns `"zh"`, `"tl"`, `"ur"` or `None`.  Python `text.lower()` is
modelled as ASCII case folding (`Char.toLower`); all keywords are ASCII. -/
def detect_language_hint (text : List Char) : Option String :=
  if text = [] then none
  else if text.any (fun c => '\u4e00' ≤ c && c ≤ '\u9fff') then some "zh"
  else if tagalog_keywords.any
      (fun k => hasSubstr k.data (text.map Char.toLower)) then some "tl"
  else if text.any (fun c => '\u0600' ≤ c && c ≤ '\u06ff') then some "ur"
  else none

/-- The spec's `LanguageHint` enumeration (spec §3). -/
inductive LanguageHint
  | Chinese
  | Tagalog
  | Urdu
  | Unknown
deriving DecidableEq, Repr

/-- Modelled from the spec (§4.1), for comparison with the source: the
four-step priority classification.  Step 1: any CJK char → Chinese;
step 2: any Tagalog keyword is a substring of the lower-cased text →
Tagalog; step 3: any Arabic-script char → Urdu; step 4: Unknown. -/
def detect_spec (text : List Char) : LanguageHint :=
  if text.any (fun c => '\u4e00' ≤ c && c ≤ '\u9fff') then LanguageHint.Chinese
  else if tagalog_keywords.any
      (fun k => hasSubstr k.data (text.map Char.toLower)) then LanguageHint.Tagalog
  else if text.any (fun c => '\u0600' ≤ c && c ≤ '\u06ff') then LanguageHint.Urdu
  else LanguageHint.Unknown

/-- Renaming of the source's string-valued hints into the spec's enumeration. -/
def toHint : Option String → LanguageHint
  | some "zh" => LanguageHint.Chinese
  | some "tl" => LanguageHint.Tagalog
  | some "ur" => LanguageHint.Urdu
  | _ => LanguageHint.Unknown

/-! ## Translation Client (`translate_with_deepseek`, bot.py lines 267-357) -/

/-- Outcome of one HTTP POST to the completion endpoint, as observed by the
calling code: the request may time out (`requests.exceptions.Timeout`), fail
with some other `requests.exceptions.RequestException`, or yield a response
with a status code and a body.  The body is summarised by
`some content` when `json()["choices"][0]["message"]["content"]` exists and
by `none` when that chain of fields is missing (`KeyError`/`IndexError`). -/
inductive HttpOutcome
  | timeout : HttpOutcome
  | requestError : HttpOutcome
  | response (status_code : Nat) (content : Option (List Char)) : HttpOutcome
deriving DecidableEq, Repr

/-- The distinct failure classes the client's handlers record, one per
`logger` branch of `translate_with_deepseek` (bot.py lines 321-355). -/
inductive ErrKind
  | rate_limited
  | quota_exhausted
  | request_timeout
  | request_failed
  | parse_failed
deriving DecidableEq, Repr

/-- What one call to `translate_with_deepseek` produces: the returned value,
the number of HTTP POSTs issued, and the recorded failure class (if any). -/
structure TranslateResult where
  result : Option (List Char)
  posts : Nat
  err : Option ErrKind
deriving DecidableEq, Repr

/-- The preamble markers stripped from a completion
(bot.py line 334). -/
def markers : List (List Char) :=
  ["翻译：".data, "Translation:".data, "乌尔都语翻译：".data, "英语翻译：".data,
   "以下是翻译结果：".data, "اردو ترجمہ:".data, "English translation:".data]

/-- The quote characters stripped by `.strip('"\x27')` (bot.py line 341). -/
def quote_chars : List Char := ['"', '\x27']

/-- Embedding of the response clean-up of `translate_with_deepseek`
(bot.py lines 331-341): strip whitespace; then, for the first marker of
`markers` (in list order) that occurs anywhere in the text, keep only the
part after its first occurrence, stripped; finally strip surrounding quote
characters and whitespace. -/
def clean_translation (content : List Char) : List Char :=
  let t0 := pyStrip content
  let t1 := match markers.find? (fun m => hasSubstr m t0) with
    | some m => pyStrip (afterFirst m t0)
    | none => t0
  pyStrip (pyStripSet quote_chars t1)

/-- Embedding of `translate_with_deepseek` (bot.py lines 267-357).  The
`source_lang_hint` and `target_lang` arguments only select the prompt
templates sent to the API (bot.py lines 286-304) and do not influence the
control flow modelled here; `api` is the outcome of the single HTTP POST.
Statuses 4xx/5xx other than 429/402 raise `HTTPError` via
`raise_for_status`, a `requests.exceptions.RequestException`, and are
handled by the same branch as any other request failure. -/
def translate_with_deepseek (text : List Char)
    (source_lang_hint target_lang : Option String) (api : HttpOutcome) :
    TranslateResult :=
  if text = [] ∨ pyStrip text = [] then ⟨none, 0, none⟩
  else
    match api with
    | HttpOutcome.timeout => ⟨none, 1, some ErrKind.request_timeout⟩
    | HttpOutcome.requestError => ⟨none, 1, some ErrKind.request_failed⟩
    | HttpOutcome.response status content =>
      if status = 429 then ⟨none, 1, some ErrKind.rate_limited⟩
      else if status = 402 then ⟨none, 1, some ErrKind.quota_exhausted⟩
      else if 400 ≤ status ∧ status < 600 then ⟨none, 1, some ErrKind.request_failed⟩
      else
        match content with
        | none => ⟨none, 1, some ErrKind.parse_failed⟩
        | some c => ⟨some (clean_translation c), 1, none⟩

/-! ## Health Monitor (`RealHealthCheckHandler`, bot.py lines 57-241) -/

/-- The observable result of one `GET /health` poll: the updated
process-wide `consecutive_failures` counter, the HTTP status code sent, and
the `status` field of the JSON body (bot.py lines 73-99). -/
structure HealthStep where
  consecutive_failures : Nat
  status_code : Nat
  status : String
deriving DecidableEq, Repr

/-- Embedding of the aggregation in `RealHealthCheckHandler.do_GET`
(bot.py lines 60-99): the four check results and the prior counter value
determine the new counter, the HTTP status code and the reported status. -/
def do_GET_health (telegram_status deepseek_status process_status bot_functional : Bool)
    (prior_failures : Nat) : HealthStep :=
  let all_healthy := telegram_status && deepseek_status && process_status && bot_functional
  let consecutive_failures := if all_healthy then 0 else prior_failures + 1
  { consecutive_failures := consecutive_failures,
    status_code := if all_healthy then 200 else if consecutive_failures < 3 then 503 else 500,
    status := if all_healthy then "healthy"
              else if consecutive_failures < 3 then "degraded" else "critical" }

/-- Embedding of `RealHealthCheckHandler.check_deepseek_api`
(bot.py lines 160-198): a missing or short API key fails without probing;
otherwise the probe's outcome decides: any response whose status is not 401
and not 403 counts as reachable, a timeout counts as reachable, and any
other request exception counts as unreachable. -/
def check_deepseek_api (api_key : List Char) (probe : HttpOutcome) : Bool :=
  if api_key = [] ∨ api_key.length < 10 then false
  else
    match probe with
    | HttpOutcome.timeout => true
    | HttpOutcome.requestError => false
    | HttpOutcome.response status _ =>
      if status ∉ ([401, 403] : List Nat) then true else false

/-! ## Dispatch Pipeline (`handle_message`, bot.py lines 391-554) -/

/-- The per-message inputs `handle_message` reads from the platform update:
`message_text` is `none` when there is no message or no text
(`update.message`/`update.message.text` falsy), and `chat_type` is
`update.message.chat.type`. -/
structure MsgUpdate where
  message_text : Option (List Char)
  chat_type : String
deriving DecidableEq, Repr

/-- The spec's terminal states of the per-message pipeline (spec §4.4). -/
inductive Outcome
  | Sent
  | Skipped
  | Failed
deriving DecidableEq, Repr

/-- Observable trace of one `handle_message` run: terminal state, number of
translation-API calls, the `target_lang` argument of each call, the number
of transient "processing" notices attempted, the translated reply (if one
was sent), and whether the group-only error notice was sent. -/
structure RunLog where
  outcome : Outcome
  api_calls : Nat
  api_targets : List String
  processing_msgs : Nat
  reply : Option (List Char)
  error_reply : Bool
deriving DecidableEq, Repr

/-- The trace of a run that ends without any external effect. -/
def skipLog : RunLog :=
  { outcome := Outcome.Skipped, api_calls := 0, api_targets := [],
    processing_msgs := 0, reply := none, error_reply := false }

/-- The reply text built at bot.py line 527. -/
def reply_format (target_lang_name : List Char) (translated : List Char) : List Char :=
  "🌐 翻译成".data ++ target_lang_name ++ ":\n\n".data ++ translated

/-- The failure tail of `handle_message` (bot.py lines 539-546): state
`Failed`, and the error notice goes out exactly when
`update.message.chat.type in ['group', 'supergroup']`. -/
def failed_log (u : MsgUpdate) (tgt : String) : RunLog :=
  { outcome := Outcome.Failed, api_calls := 1, api_targets := [tgt],
    processing_msgs := 1, reply := none,
    error_reply := u.chat_type == "group" || u.chat_type == "supergroup" }

/-- One translation branch of `handle_message` (bot.py lines 410-446 and its
two analogues) followed by the shared tail (lines 525-546): send the
processing notice, call `translate_with_deepseek` through the worker pool,
and act on the result.  Python truthiness makes `if translated and
translated != original_text` fall through to the failure branch when the
client returns the empty string. -/
def translation_branch (translate : List Char → String → String → Option (List Char))
    (u : MsgUpdate) (original_text : List Char) (hint tgt : String)
    (target_lang_name : List Char) : RunLog :=
  match translate original_text hint tgt with
  | some t =>
    if t ≠ [] ∧ t ≠ original_text then
      { outcome := Outcome.Sent, api_calls := 1, api_targets := [tgt],
        processing_msgs := 1, reply := some (reply_format target_lang_name t),
        error_reply := false }
    else if t ≠ [] then
      { outcome := Outcome.Skipped, api_calls := 1, api_targets := [tgt],
        processing_msgs := 1, reply := none, error_reply := false }
    else failed_log u tgt
  | none => failed_log u tgt

/-- Embedding of `handle_message` (bot.py lines 391-554), with the
translation client abstracted as the oracle `translate` (the source calls
`translate_with_deepseek` through a worker pool).  Control flow follows the
source text: skip when there is no text, when the stripped text is shorter
than 2 characters or starts with `'/'`; otherwise dispatch on
`detect_language_hint`; hint `"zh"` translates to `"ur"`, hints `"tl"` and
`"ur"` translate to `"en"`, and any other hint returns untouched. -/
def handle_message (translate : List Char → String → String → Option (List Char))
    (u : MsgUpdate) : RunLog :=
  match u.message_text with
  | none => skipLog
  | some raw =>
    if raw = [] then skipLog
    else
      let original_text := pyStrip raw
      if original_text.length < 2 ∨ ['/'].isPrefixOf original_text then skipLog
      else
        let lang_hint := detect_language_hint original_text
        if lang_hint = some "zh" then
          translation_branch translate u original_text "zh" "ur" "乌尔都语".data
        else if lang_hint = some "tl" then
          translation_branch translate u original_text "tl" "en" "英语".data
        else if lang_hint = some "ur" then
          translation_branch translate u original_text "ur" "en" "英语".data
        else skipLog

/-! ## Block structure of `handle_message` (bot.py lines 391-554)

Python requires every `try:` suite to be followed, at the same indentation,
by an `except` or `finally` clause before the block dedents.  The following
checker and line table record the statement layout of `handle_message` so
that this well-formedness condition can be evaluated on the source. -/

/-- Statement kinds relevant to `try` block well-formedness. -/
inductive PyKind
  | tryK
  | exceptK
  | finallyK
  | otherK
deriving DecidableEq, Repr

/-- One logical statement line of the source: its line number, its
indentation in spaces, and its kind. -/
structure PyLine where
  lineno : Nat
  indent : Nat
  kind : PyKind
deriving DecidableEq, Repr

/-- Given the lines following a `try:` at indentation `i`, the first
subsequent line at indentation `≤ i` must be an `except` or `finally`
clause at exactly indentation `i`; otherwise the `try` block has no
handler, which Python rejects. -/
def closed_by_handler (i : Nat) : List PyLine → Bool
  | [] => false
  | l :: ls =>
    if i < l.indent then closed_by_handler i ls
    else l.indent = i && (l.kind = PyKind.exceptK || l.kind = PyKind.finallyK)

/-- Every `try:` line is followed by a matching handler clause. -/
def all_tries_handled : List PyLine → Bool
  | [] => true
  | l :: ls =>
    (if l.kind = PyKind.tryK then closed_by_handler l.indent ls else true)
      && all_tries_handled ls

/-- Statement layout of `handle_message` (bot.py lines 391-554), transcribed
line by line from the source; blank lines, comments and continuation lines
of multi-line statements are omitted, and multi-line statements are listed
at their first line. -/
def handle_message_lines : List PyLine :=
  [⟨391, 0, PyKind.otherK⟩, ⟨396, 4, PyKind.otherK⟩, ⟨397, 8, PyKind.otherK⟩,
   ⟨399, 4, PyKind.tryK⟩, ⟨400, 8, PyKind.otherK⟩, ⟨403, 8, PyKind.otherK⟩,
   ⟨404, 12, PyKind.otherK⟩, ⟨407, 8, PyKind.otherK⟩, ⟨410, 8, PyKind.otherK⟩,
   ⟨412, 12, PyKind.otherK⟩, ⟨415, 12, PyKind.tryK⟩, ⟨416, 16, PyKind.otherK⟩,
   ⟨420, 16, PyKind.otherK⟩, ⟨421, 12, PyKind.exceptK⟩, ⟨422, 16, PyKind.otherK⟩,
   ⟨423, 16, PyKind.otherK⟩, ⟨424, 16, PyKind.otherK⟩, ⟨426, 12, PyKind.otherK⟩,
   ⟨427, 12, PyKind.tryK⟩, ⟨429, 16, PyKind.otherK⟩, ⟨430, 16, PyKind.otherK⟩,
   ⟨439, 16, PyKind.otherK⟩, ⟨440, 20, PyKind.tryK⟩, ⟨441, 24, PyKind.otherK⟩,
   ⟨442, 20, PyKind.exceptK⟩, ⟨443, 24, PyKind.otherK⟩, ⟨445, 16, PyKind.otherK⟩,
   ⟨447, 8, PyKind.otherK⟩, ⟨449, 12, PyKind.otherK⟩, ⟨452, 12, PyKind.tryK⟩,
   ⟨453, 16, PyKind.otherK⟩, ⟨457, 16, PyKind.otherK⟩, ⟨458, 12, PyKind.exceptK⟩,
   ⟨459, 16, PyKind.otherK⟩, ⟨460, 16, PyKind.otherK⟩, ⟨461, 16, PyKind.otherK⟩,
   ⟨463, 12, PyKind.otherK⟩, ⟨464, 12, PyKind.tryK⟩, ⟨466, 16, PyKind.otherK⟩,
   ⟨467, 16, PyKind.otherK⟩, ⟨476, 16, PyKind.otherK⟩, ⟨477, 20, PyKind.tryK⟩,
   ⟨478, 24, PyKind.otherK⟩, ⟨479, 20, PyKind.exceptK⟩, ⟨480, 24, PyKind.otherK⟩,
   ⟨482, 16, PyKind.otherK⟩, ⟨484, 8, PyKind.otherK⟩, ⟨486, 12, PyKind.otherK⟩,
   ⟨489, 12, PyKind.tryK⟩, ⟨490, 16, PyKind.otherK⟩, ⟨494, 16, PyKind.otherK⟩,
   ⟨495, 12, PyKind.exceptK⟩, ⟨496, 16, PyKind.otherK⟩, ⟨497, 16, PyKind.otherK⟩,
   ⟨498, 16, PyKind.otherK⟩, ⟨500, 12, PyKind.otherK⟩, ⟨501, 12, PyKind.tryK⟩,
   ⟨503, 16, PyKind.otherK⟩, ⟨504, 16, PyKind.otherK⟩, ⟨513, 16, PyKind.otherK⟩,
   ⟨514, 20, PyKind.tryK⟩, ⟨515, 24, PyKind.otherK⟩, ⟨516, 20, PyKind.exceptK⟩,
   ⟨517, 24, PyKind.otherK⟩, ⟨519, 16, PyKind.otherK⟩, ⟨521, 8, PyKind.otherK⟩,
   ⟨523, 12, PyKind.otherK⟩, ⟨525, 8, PyKind.otherK⟩, ⟨527, 12, PyKind.otherK⟩,
   ⟨530, 12, PyKind.otherK⟩, ⟨536, 12, PyKind.otherK⟩, ⟨537, 8, PyKind.otherK⟩,
   ⟨538, 12, PyKind.otherK⟩, ⟨539, 8, PyKind.otherK⟩, ⟨540, 12, PyKind.otherK⟩,
   ⟨542, 12, PyKind.otherK⟩, ⟨543, 16, PyKind.otherK⟩, ⟨548, 4, PyKind.exceptK⟩,
   ⟨549, 8, PyKind.otherK⟩, ⟨550, 8, PyKind.otherK⟩, ⟨551, 12, PyKind.tryK⟩,
   ⟨552, 16, PyKind.otherK⟩, ⟨553, 12, PyKind.exceptK⟩, ⟨554, 16, PyKind.otherK⟩]

/-! ## Helper lemmas -/

/-- The detector only ever produces the three supported hints or `none`. -/
theorem detect_language_hint_values (text : List Char) :
    detect_language_hint text = none ∨ detect_language_hint text = some "zh" ∨
    detect_language_hint text = some "tl" ∨ detect_language_hint text = some "ur" := by
  unfold detect_language_hint
  split
  · exact Or.inl rfl
  · split
    · exact Or.inr (Or.inl rfl)
    · split
      · exact Or.inr (Or.inr (Or.inl rfl))
      · split
        · exact Or.inr (Or.inr (Or.inr rfl))
        · exact Or.inl rfl

/-! ## Claim theorems -/

/-- C1: the dispatch code is not a well-formed Python module: in
`handle_message` the `try:` blocks opened at lines 427, 464 and 501 are
dedented into an `elif` of the outer chain with no `except`/`finally`
clause at their indentation, so `all_tries_handled` fails on the
transcribed statement layout (Python rejects the module with a syntax
error at the first such dedent, line 447). -/
theorem handle_message_try_blocks_unhandled :
    all_tries_handled handle_message_lines = false
    ∧ handle_message_lines.any
        (fun l => l.lineno = 427 && l.indent = 12 && l.kind = PyKind.tryK) = true
    ∧ closed_by_handler 12
        (handle_message_lines.dropWhile (fun l => decide (l.lineno ≤ 427))) = false
    ∧ closed_by_handler 12
        (handle_message_lines.dropWhile (fun l => decide (l.lineno ≤ 464))) = false
    ∧ closed_by_handler 12
        (handle_message_lines.dropWhile (fun l => decide (l.lineno ≤ 501))) = false := by
  refine ⟨by decide, by decide, by decide, by decide, by decide⟩

/-- C2: `detect_language_hint` computes exactly the spec's four-step
priority classification (Chinese on any CJK character, else Tagalog on any
keyword substring of the lower-cased text, else Urdu on any Arabic-script
character, else Unknown); in particular it returns `none` (Unknown) on the
empty string and on pure-ASCII text containing no keyword. -/
theorem detect_language_hint_matches_spec (text : List Char) :
    toHint (detect_language_hint text) = detect_spec text
    ∧ (text = [] → detect_language_hint text = none)
    ∧ (text.all (fun c => c.toNat < 128) = true →
       tagalog_keywords.all
         (fun k => ! hasSubstr k.data (text.map Char.toLower)) = true →
       detect_language_hint text = none) := by
  refine ⟨?_, ?_, ?_⟩
  · rcases text with _ | ⟨c, cs⟩
    · rfl
    · rw [detect_language_hint, detect_spec, if_neg (by simp : ¬(c :: cs = []))]
      cases h1 : ((c :: cs).any (fun ch => '一' ≤ ch && ch ≤ '鿿')) <;>
      cases h2 : (tagalog_keywords.any
          (fun k => hasSubstr k.data ((c :: cs).map Char.toLower))) <;>
      cases h3 : ((c :: cs).any (fun ch => '؀' ≤ ch && ch ≤ 'ۿ')) <;>
      (try simp only [h1, h2, h3]) <;> rfl
  · intro h0
    rw [detect_language_hint, if_pos h0]
  · intro hascii hkw
    by_cases h0 : text = []
    · rw [detect_language_hint, if_pos h0]
    · have hcjk : text.any (fun ch => '一' ≤ ch && ch ≤ '鿿') = false := by
        rw [List.any_eq_false]
        intro c hc
        have h128 : c.toNat < 128 := by
          have := List.all_eq_true.mp hascii c hc
          simpa using this
        simp only [Bool.and_eq_true, decide_eq_true_eq, not_and]
        intro hle
        exfalso
        have h1 : ('一').val ≤ c.val := hle
        have h2 : ('一').val.toNat ≤ c.val.toNat := h1
        have h3 : ('一').val.toNat = 19968 := by decide
        have h4 : c.toNat = c.val.toNat := rfl
        omega
      have har : text.any (fun ch => '؀' ≤ ch && ch ≤ 'ۿ') = false := by
        rw [List.any_eq_false]
        intro c hc
        have h128 : c.toNat < 128 := by
          have := List.all_eq_true.mp hascii c hc
          simpa using this
        simp only [Bool.and_eq_true, decide_eq_true_eq, not_and]
        intro hle
        exfalso
        have h1 : ('؀').val ≤ c.val := hle
        have h2 : ('؀').val.toNat ≤ c.val.toNat := h1
        have h3 : ('؀').val.toNat = 1536 := by decide
        have h4 : c.toNat = c.val.toNat := rfl
        omega
      have hkw2 : tagalog_keywords.any
          (fun k => hasSubstr k.data (text.map Char.toLower)) = false := by
        rw [List.any_eq_false]
        intro k hk
        have := List.all_eq_true.mp hkw k hk
        simpa using this
      rw [detect_language_hint, if_neg h0]
      simp only [hcjk, hkw2, har, Bool.false_eq_true, if_false]

/-- C2 witness: the theorem instantiated at the pure-ASCII non-keyword
input `"hello there"`, whose classification is Unknown (`none`). -/
theorem detect_language_hint_matches_spec_witness :
    detect_language_hint ("hello there").data = none :=
  (detect_language_hint_matches_spec ("hello there").data).2.2
    (by decide) (by decide)

/-- C3: one `GET /health` poll resets the consecutive-failure counter to 0
with status `healthy`/200 when all four checks pass; otherwise it
increments the counter by exactly 1 and reports `degraded`/503 while the
incremented counter is below 3 and `critical`/500 once it reaches 3. -/
theorem do_GET_health_aggregate (t d p b : Bool) (prior : Nat) :
    ((t && d && p && b) = true →
      do_GET_health t d p b prior = ⟨0, 200, "healthy"⟩)
    ∧ ((t && d && p && b) = false →
        (do_GET_health t d p b prior).consecutive_failures = prior + 1
        ∧ (prior + 1 < 3 →
            (do_GET_health t d p b prior).status_code = 503
            ∧ (do_GET_health t d p b prior).status = "degraded")
        ∧ (3 ≤ prior + 1 →
            (do_GET_health t d p b prior).status_code = 500
            ∧ (do_GET_health t d p b prior).status = "critical")) := by
  constructor
  · intro h
    simp [do_GET_health, h]
  · intro h
    refine ⟨by simp [do_GET_health, h], ?_, ?_⟩
    · intro hlt
      constructor <;> simp [do_GET_health, h, hlt]
    · intro hge
      have hnlt : ¬(prior + 1 < 3) := by omega
      constructor <;> simp [do_GET_health, h, hnlt]

/-- C3 witness: a fully healthy poll at prior counter 7 yields
`healthy`/200 with the counter reset; one failing check at prior counter 0
yields `degraded`/503 with counter 1; one failing check at prior counter 2
yields `critical`/500 with counter 3. -/
theorem do_GET_health_aggregate_witness :
    do_GET_health true true true true 7 = ⟨0, 200, "healthy"⟩
    ∧ (do_GET_health false true true true 0).consecutive_failures = 1
    ∧ (do_GET_health false true true true 0).status_code = 503
    ∧ (do_GET_health false true true true 0).status = "degraded"
    ∧ (do_GET_health false true true true 2).consecutive_failures = 3
    ∧ (do_GET_health false true true true 2).status_code = 500
    ∧ (do_GET_health false true true true 2).status = "critical" := by
  refine ⟨(do_GET_health_aggregate true true true true 7).1 rfl,
    ((do_GET_health_aggregate false true true true 0).2 rfl).1,
    (((do_GET_health_aggregate false true true true 0).2 rfl).2.1 (by omega)).1,
    (((do_GET_health_aggregate false true true true 0).2 rfl).2.1 (by omega)).2,
    ((do_GET_health_aggregate false true true true 2).2 rfl).1,
    (((do_GET_health_aggregate false true true true 2).2 rfl).2.2 (by omega)).1,
    (((do_GET_health_aggregate false true true true 2).2 rfl).2.2 (by omega)).2⟩

/-- C9: with a well-formed API key, `check_deepseek_api` reports reachable
for every response whose status is neither 401 nor 403 (rate limits
included) and for a timed-out probe; it reports unreachable only for a
401/403 response or a non-timeout request exception. -/
theorem check_deepseek_api_reachability (api_key : List Char)
    (hk : 10 ≤ api_key.length) :
    (∀ s c, s ≠ 401 → s ≠ 403 →
      check_deepseek_api api_key (HttpOutcome.response s c) = true)
    ∧ check_deepseek_api api_key HttpOutcome.timeout = true
    ∧ (∀ c, check_deepseek_api api_key (HttpOutcome.response 401 c) = false)
    ∧ (∀ c, check_deepseek_api api_key (HttpOutcome.response 403 c) = false)
    ∧ check_deepseek_api api_key HttpOutcome.requestError = false
    ∧ (∀ probe, check_deepseek_api api_key probe = false →
        probe = HttpOutcome.requestError ∨
        ∃ c, probe = HttpOutcome.response 401 c ∨
             probe = HttpOutcome.response 403 c) := by
  have hne : ¬(api_key = [] ∨ api_key.length < 10) := by
    rintro (h | h)
    · rw [h] at hk; simp at hk
    · omega
  refine ⟨?_, ?_, ?_, ?_, ?_, ?_⟩
  · intro s c hs1 hs3
    simp [check_deepseek_api, hne, hs1, hs3]
  · simp [check_deepseek_api, hne]
  · intro c; simp [check_deepseek_api, hne]
  · intro c; simp [check_deepseek_api, hne]
  · simp [check_deepseek_api, hne]
  · intro probe hfalse
    cases probe with
    | timeout => simp [check_deepseek_api, hne] at hfalse
    | requestError => exact Or.inl rfl
    | response s c =>
      refine Or.inr ⟨c, ?_⟩
      simp only [check_deepseek_api, if_neg hne] at hfalse
      by_cases h1 : s = 401
      · exact Or.inl (by rw [h1])
      · by_cases h3 : s = 403
        · exact Or.inr (by rw [h3])
        · simp [h1, h3] at hfalse

/-- C9 witness: with a 10-character key, a 429 response and a timeout both
count as reachable, while a 401 response and a generic request exception
count as unreachable. -/
theorem check_deepseek_api_reachability_witness :
    check_deepseek_api ("0123456789").data (HttpOutcome.response 429 none) = true
    ∧ check_deepseek_api ("0123456789").data HttpOutcome.timeout = true
    ∧ check_deepseek_api ("0123456789").data (HttpOutcome.response 401 none) = false
    ∧ check_deepseek_api ("0123456789").data HttpOutcome.requestError = false := by
  refine ⟨(check_deepseek_api_reachability ("0123456789").data (by decide)).1
      429 none (by decide) (by decide),
    (check_deepseek_api_reachability ("0123456789").data (by decide)).2.1,
    (check_deepseek_api_reachability ("0123456789").data (by decide)).2.2.1 none,
    (check_deepseek_api_reachability ("0123456789").data (by decide)).2.2.2.2.1⟩

/-- C7 counterexample: an HTTP 401 auth-failure response and a generic
network fault are recorded with the same error kind
(`ErrKind.request_failed`), so the six failure classes of the claim are not
all distinguished: 401/403 responses reach `raise_for_status`, whose
`HTTPError` is caught by the same `RequestException` handler as any other
request failure. -/
theorem translate_error_kinds_collapse :
    (translate_with_deepseek ("hello").data none none
        (HttpOutcome.response 401 none)).err
      = (translate_with_deepseek ("hello").data none none
          HttpOutcome.requestError).err
    ∧ (translate_with_deepseek ("hello").data none none
        (HttpOutcome.response 401 none)).err = some ErrKind.request_failed
    ∧ (translate_with_deepseek ("hello").data none none
        (HttpOutcome.response 403 none)).err = some ErrKind.request_failed := by
  refine ⟨by decide, by decide, by decide⟩

/-- C7 as amended: every failure of `translate_with_deepseek` — timeout,
HTTP 429, HTTP 402, HTTP 401/403, any other 4xx/5xx, a missing completion
field, or a generic network fault — returns `none` with exactly one HTTP
POST and no internal retry, and records one of five distinct error kinds;
timeout, 429, 402 and malformed responses each get their own kind, while
401/403 auth failures share the generic request-failure kind with network
faults. -/
theorem translate_failure_handling (text : List Char)
    (source_lang_hint target_lang : Option String)
    (c : Option (List Char)) (s : Nat)
    (h : ¬(text = [] ∨ pyStrip text = [])) :
    translate_with_deepseek text source_lang_hint target_lang HttpOutcome.timeout
      = ⟨none, 1, some ErrKind.request_timeout⟩
    ∧ translate_with_deepseek text source_lang_hint target_lang HttpOutcome.requestError
      = ⟨none, 1, some ErrKind.request_failed⟩
    ∧ translate_with_deepseek text source_lang_hint target_lang
        (HttpOutcome.response 429 c) = ⟨none, 1, some ErrKind.rate_limited⟩
    ∧ translate_with_deepseek text source_lang_hint target_lang
        (HttpOutcome.response 402 c) = ⟨none, 1, some ErrKind.quota_exhausted⟩
    ∧ translate_with_deepseek text source_lang_hint target_lang
        (HttpOutcome.response 401 c) = ⟨none, 1, some ErrKind.request_failed⟩
    ∧ translate_with_deepseek text source_lang_hint target_lang
        (HttpOutcome.response 403 c) = ⟨none, 1, some ErrKind.request_failed⟩
    ∧ (400 ≤ s → s < 600 → s ≠ 429 → s ≠ 402 →
        translate_with_deepseek text source_lang_hint target_lang
          (HttpOutcome.response s c) = ⟨none, 1, some ErrKind.request_failed⟩)
    ∧ (s < 400 →
        translate_with_deepseek text source_lang_hint target_lang
          (HttpOutcome.response s none) = ⟨none, 1, some ErrKind.parse_failed⟩)
    ∧ (∀ api,
        (translate_with_deepseek text source_lang_hint target_lang api).posts ≤ 1) := by
  refine ⟨?_, ?_, ?_, ?_, ?_, ?_, ?_, ?_, ?_⟩
  · simp [translate_with_deepseek, h]
  · simp [translate_with_deepseek, h]
  · simp [translate_with_deepseek, h]
  · simp [translate_with_deepseek, h]
  · simp [translate_with_deepseek, h]
  · simp [translate_with_deepseek, h]
  · intro h1 h2 h3 h4
    simp [translate_with_deepseek, h, h3, h4, h1, h2]
  · intro h1
    have h429 : s ≠ 429 := by omega
    have h402 : s ≠ 402 := by omega
    have h400 : ¬(400 ≤ s ∧ s < 600) := by omega
    simp [translate_with_deepseek, h, h429, h402, h400]
  · intro api
    cases api with
    | timeout => simp [translate_with_deepseek, h]
    | requestError => simp [translate_with_deepseek, h]
    | response st ct =>
      simp only [translate_with_deepseek, if_neg h]
      split
      · exact Nat.le_refl 1
      · split
        · exact Nat.le_refl 1
        · split
          · exact Nat.le_refl 1
          · cases ct <;> exact Nat.le_refl 1

/-- C7 witness: the amended theorem instantiated at the text `"hi"`: a
timeout, a 500 response and a 200 response with missing completion fields
each return `none` from one POST with their recorded kinds. -/
theorem translate_failure_handling_witness :
    translate_with_deepseek ("hi").data none none HttpOutcome.timeout
      = ⟨none, 1, some ErrKind.request_timeout⟩
    ∧ translate_with_deepseek ("hi").data none none (HttpOutcome.response 500 none)
      = ⟨none, 1, some ErrKind.request_failed⟩
    ∧ translate_with_deepseek ("hi").data none none (HttpOutcome.response 200 none)
      = ⟨none, 1, some ErrKind.parse_failed⟩ := by
  refine ⟨(translate_failure_handling ("hi").data none none none 500 (by decide)).1,
    (translate_failure_handling ("hi").data none none none 500
        (by decide)).2.2.2.2.2.2.1 (by omega) (by omega) (by omega) (by omega),
    (translate_failure_handling ("hi").data none none none 200
        (by decide)).2.2.2.2.2.2.2.1 (by omega)⟩

/-- C8 counterexample: on the completion text `"abc Translation: xyz"` no
marker occurs as a prefix, and quote/whitespace trimming alone would leave
the text unchanged, yet `clean_translation` returns `"xyz"`: the source
splits at a marker found anywhere in the text, not only at a prefix. -/
theorem clean_translation_strips_nonprefix_marker :
    markers.all
      (fun m => ! m.isPrefixOf (pyStrip ("abc Translation: xyz").data)) = true
    ∧ clean_translation ("abc Translation: xyz").data = ("xyz").data
    ∧ pyStrip (pyStripSet quote_chars (pyStrip ("abc Translation: xyz").data))
        = ("abc Translation: xyz").data
    ∧ ("xyz").data ≠ ("abc Translation: xyz").data := by
  refine ⟨by decide, by decide, by decide, by decide⟩

/-- C8 as amended: the clean-up splits at the first occurrence of the first
matching marker anywhere in the stripped text, not only when the marker is
a prefix; for every completion text in which no marker occurs anywhere as a
substring, the content is returned unchanged except for quote and
whitespace trimming, and on a successful response the client returns
exactly this cleaned content. -/
theorem clean_translation_no_marker (content : List Char)
    (hno : ∀ m ∈ markers, hasSubstr m (pyStrip content) = false) :
    clean_translation content
      = pyStrip (pyStripSet quote_chars (pyStrip content))
    ∧ (∀ (text : List Char) (hint tgt : Option String) (s : Nat),
        ¬(text = [] ∨ pyStrip text = []) → s < 400 →
        translate_with_deepseek text hint tgt (HttpOutcome.response s (some content))
          = ⟨some (clean_translation content), 1, none⟩) := by
  constructor
  · unfold clean_translation
    have hf : markers.find? (fun m => hasSubstr m (pyStrip content)) = none := by
      rw [List.find?_eq_none]
      intro m hm
      simp [hno m hm]
    simp [hf]
  · intro text hint tgt s htext hs
    have h429 : s ≠ 429 := by omega
    have h402 : s ≠ 402 := by omega
    have h400 : ¬(400 ≤ s ∧ s < 600) := by omega
    simp [translate_with_deepseek, htext, h429, h402, h400]

/-- C8 witness: the amended theorem instantiated at the marker-free
completion text `"  \"hello\"  "`, which cleans to `"hello"`. -/
theorem clean_translation_no_marker_witness :
    clean_translation ("  \"hello\"  ").data = ("hello").data := by
  have h := (clean_translation_no_marker ("  \"hello\"  ").data (by decide)).1
  rw [h]
  decide

/-- Helper: every translation branch makes exactly one API call with the
branch's fixed target and attempts one processing notice. -/
theorem translation_branch_effects
    (translate : List Char → String → String → Option (List Char))
    (u : MsgUpdate) (ot : List Char) (hint tgt : String) (name : List Char) :
    (translation_branch translate u ot hint tgt name).api_targets = [tgt]
    ∧ (translation_branch translate u ot hint tgt name).api_calls = 1 := by
  unfold translation_branch failed_log
  cases translate ot hint tgt with
  | none => exact ⟨rfl, rfl⟩
  | some t =>
    dsimp only
    split_ifs with h1 h2 <;> exact ⟨rfl, rfl⟩

/-- Helper: past the guards, `handle_message` reduces to the dispatch
if-chain on the detected hint. -/
theorem handle_message_guarded
    (translate : List Char → String → String → Option (List Char))
    (u : MsgUpdate) (raw : List Char)
    (hm : u.message_text = some raw) (h0 : ¬raw = [])
    (hg : ¬((pyStrip raw).length < 2 ∨ ['/'].isPrefixOf (pyStrip raw) = true)) :
    handle_message translate u =
      (if detect_language_hint (pyStrip raw) = some "zh" then
        translation_branch translate u (pyStrip raw) "zh" "ur" ("乌尔都语").data
      else if detect_language_hint (pyStrip raw) = some "tl" then
        translation_branch translate u (pyStrip raw) "tl" "en" ("英语").data
      else if detect_language_hint (pyStrip raw) = some "ur" then
        translation_branch translate u (pyStrip raw) "ur" "en" ("英语").data
      else skipLog) := by
  simp only [handle_message, hm]
  rw [if_neg h0, if_neg hg]

/-- Helper: a message whose stripped text is shorter than 2 characters or
starts with the command prefix produces the effect-free skip trace. -/
theorem handle_message_short_circuit
    (translate : List Char → String → String → Option (List Char))
    (u : MsgUpdate) (raw : List Char)
    (hm : u.message_text = some raw)
    (h : (pyStrip raw).length < 2 ∨ ['/'].isPrefixOf (pyStrip raw) = true) :
    handle_message translate u = skipLog := by
  by_cases h0 : raw = []
  · simp [handle_message, hm, h0]
  · simp only [handle_message, hm]
    rw [if_neg h0, if_pos h]

/-- Helper: a branch can only end `Sent` when the client returned a
non-empty text different from the source text. -/
theorem translation_branch_sent
    (translate : List Char → String → String → Option (List Char))
    (u : MsgUpdate) (ot : List Char) (hint tgt : String) (name : List Char)
    (hs : (translation_branch translate u ot hint tgt name).outcome = Outcome.Sent) :
    ∃ t, translate ot hint tgt = some t ∧ t ≠ [] ∧ t ≠ ot := by
  unfold translation_branch failed_log at hs
  cases htr : translate ot hint tgt with
  | none => rw [htr] at hs; dsimp only at hs; exact Outcome.noConfusion hs
  | some t =>
    rw [htr] at hs
    dsimp only at hs
    by_cases h1 : t ≠ [] ∧ t ≠ ot
    · exact ⟨t, rfl, h1.1, h1.2⟩
    · rw [if_neg h1] at hs
      by_cases h2 : t ≠ []
      · rw [if_pos h2] at hs; exact Outcome.noConfusion hs
      · rw [if_neg h2] at hs; exact Outcome.noConfusion hs

/-- C4: past the guards, the target language is a pure function of the
detected hint alone, whatever the update and the translation oracle:
hint `"zh"` issues exactly one call with target `"ur"`, hints `"tl"` and
`"ur"` exactly one call with target `"en"`, and an undetected language
produces the effect-free skip trace (no API call, no reply). -/
theorem handle_message_target_selection
    (translate : List Char → String → String → Option (List Char))
    (u : MsgUpdate) (raw : List Char)
    (hm : u.message_text = some raw) (h0 : ¬raw = [])
    (hg : ¬((pyStrip raw).length < 2 ∨ ['/'].isPrefixOf (pyStrip raw) = true)) :
    (detect_language_hint (pyStrip raw) = some "zh" →
      (handle_message translate u).api_targets = ["ur"]
      ∧ (handle_message translate u).api_calls = 1)
    ∧ (detect_language_hint (pyStrip raw) = some "tl" →
      (handle_message translate u).api_targets = ["en"]
      ∧ (handle_message translate u).api_calls = 1)
    ∧ (detect_language_hint (pyStrip raw) = some "ur" →
      (handle_message translate u).api_targets = ["en"]
      ∧ (handle_message translate u).api_calls = 1)
    ∧ (detect_language_hint (pyStrip raw) = none →
      handle_message translate u = skipLog) := by
  rw [handle_message_guarded translate u raw hm h0 hg]
  refine ⟨?_, ?_, ?_, ?_⟩
  · intro hd
    rw [if_pos hd]
    exact translation_branch_effects translate u (pyStrip raw) "zh" "ur" _
  · intro hd
    rw [if_neg (by rw [hd]; simp), if_pos hd]
    exact translation_branch_effects translate u (pyStrip raw) "tl" "en" _
  · intro hd
    rw [if_neg (by rw [hd]; simp), if_neg (by rw [hd]; simp), if_pos hd]
    exact translation_branch_effects translate u (pyStrip raw) "ur" "en" _
  · intro hd
    rw [if_neg (by rw [hd]; simp), if_neg (by rw [hd]; simp),
        if_neg (by rw [hd]; simp)]

/-- C4 witness: a Chinese message is dispatched with exactly one call with
target `"ur"`, and `"hello there"` (hint Unknown) yields the effect-free
skip trace. -/
theorem handle_message_target_selection_witness :
    (handle_message (fun _ _ _ => none)
        ⟨some ("你好").data, "group"⟩).api_targets = ["ur"]
    ∧ handle_message (fun _ _ _ => none)
        ⟨some ("hello there").data, "group"⟩ = skipLog := by
  constructor
  · exact ((handle_message_target_selection (fun _ _ _ => none)
      ⟨some ("你好").data, "group"⟩ ("你好").data rfl (by decide)
      (by decide)).1 (by decide)).1
  · exact (handle_message_target_selection (fun _ _ _ => none)
      ⟨some ("hello there").data, "group"⟩ ("hello there").data rfl (by decide)
      (by decide)).2.2.2 (by decide)

/-- C5: a message whose stripped text is empty, shorter than 2 characters,
or starts with `'/'` is skipped with no API call, no processing notice and
no reply of any kind, whatever the translation oracle. -/
theorem handle_message_skips_short_and_commands
    (translate : List Char → String → String → Option (List Char))
    (u : MsgUpdate) (raw : List Char)
    (hm : u.message_text = some raw)
    (h : (pyStrip raw).length < 2 ∨ ['/'].isPrefixOf (pyStrip raw) = true) :
    (handle_message translate u).outcome = Outcome.Skipped
    ∧ (handle_message translate u).api_calls = 0
    ∧ (handle_message translate u).processing_msgs = 0
    ∧ (handle_message translate u).reply = none
    ∧ (handle_message translate u).error_reply = false := by
  rw [handle_message_short_circuit translate u raw hm h]
  exact ⟨rfl, rfl, rfl, rfl, rfl⟩

/-- C5 witness: the length-1 message `"a"` and the command `"/start"` are
both skipped with zero API calls. -/
theorem handle_message_skips_short_and_commands_witness :
    (handle_message (fun _ _ _ => none) ⟨some ("a").data, "group"⟩).outcome
      = Outcome.Skipped
    ∧ (handle_message (fun _ _ _ => none) ⟨some ("a").data, "group"⟩).api_calls = 0
    ∧ (handle_message (fun _ _ _ => none) ⟨some ("/start").data, "group"⟩).outcome
      = Outcome.Skipped
    ∧ (handle_message (fun _ _ _ => none) ⟨some ("/start").data, "group"⟩).api_calls
      = 0 := by
  have ha := handle_message_skips_short_and_commands (fun _ _ _ => none)
    ⟨some ("a").data, "group"⟩ ("a").data rfl (Or.inl (by decide))
  have hc := handle_message_skips_short_and_commands (fun _ _ _ => none)
    ⟨some ("/start").data, "group"⟩ ("/start").data rfl (Or.inr (by decide))
  exact ⟨ha.1, ha.2.1, hc.1, hc.2.1⟩

/-- C6: when the translation client succeeds but returns text identical to
its input, every message ends `Skipped` with no reply and no error notice;
and a run can only end `Sent` when the client returned a (non-empty) text
different from the stripped source text. -/
theorem handle_message_identity_translation
    (translate tr2 : List Char → String → String → Option (List Char))
    (u u2 : MsgUpdate)
    (hid : ∀ s h t, translate s h t = some s) :
    ((handle_message translate u).outcome = Outcome.Skipped
      ∧ (handle_message translate u).reply = none
      ∧ (handle_message translate u).error_reply = false)
    ∧ ((handle_message tr2 u2).outcome = Outcome.Sent →
        ∃ raw hint tgt t, u2.message_text = some raw
          ∧ tr2 (pyStrip raw) hint tgt = some t ∧ t ≠ [] ∧ t ≠ pyStrip raw) := by
  constructor
  · rcases hmt : u.message_text with _ | raw
    · simp [handle_message, hmt, skipLog]
    · by_cases h0 : raw = []
      · simp [handle_message, hmt, h0, skipLog]
      · by_cases hg : ((pyStrip raw).length < 2 ∨ ['/'].isPrefixOf (pyStrip raw) = true)
        · rw [handle_message_short_circuit translate u raw hmt hg]
          exact ⟨rfl, rfl, rfl⟩
        · rw [handle_message_guarded translate u raw hmt h0 hg]
          have hone : pyStrip raw ≠ [] := by
            intro hh
            exact hg (Or.inl (by rw [hh]; decide))
          have hbr : ∀ hint tgt name,
              (translation_branch translate u (pyStrip raw) hint tgt name).outcome
                  = Outcome.Skipped
              ∧ (translation_branch translate u (pyStrip raw) hint tgt name).reply = none
              ∧ (translation_branch translate u (pyStrip raw) hint tgt name).error_reply
                  = false := by
            intro hint tgt name
            unfold translation_branch
            rw [hid (pyStrip raw) hint tgt]
            dsimp only
            rw [if_neg (fun hc => hc.2 rfl), if_pos hone]
            exact ⟨rfl, rfl, rfl⟩
          split_ifs with hd1 hd2 hd3
          · exact hbr "zh" "ur" _
          · exact hbr "tl" "en" _
          · exact hbr "ur" "en" _
          · exact ⟨rfl, rfl, rfl⟩
  · intro hsent
    rcases hmt : u2.message_text with _ | raw
    · rw [show handle_message tr2 u2 = skipLog by simp [handle_message, hmt]] at hsent
      exact Outcome.noConfusion hsent
    · by_cases h0 : raw = []
      · rw [show handle_message tr2 u2 = skipLog by
          simp [handle_message, hmt, h0]] at hsent
        exact Outcome.noConfusion hsent
      · by_cases hg : ((pyStrip raw).length < 2 ∨ ['/'].isPrefixOf (pyStrip raw) = true)
        · rw [handle_message_short_circuit tr2 u2 raw hmt hg] at hsent
          exact Outcome.noConfusion hsent
        · rw [handle_message_guarded tr2 u2 raw hmt h0 hg] at hsent
          split_ifs at hsent with hd1 hd2 hd3
          · obtain ⟨t, htr, hne, hneq⟩ :=
              translation_branch_sent tr2 u2 (pyStrip raw) "zh" "ur" _ hsent
            exact ⟨raw, "zh", "ur", t, rfl, htr, hne, hneq⟩
          · obtain ⟨t, htr, hne, hneq⟩ :=
              translation_branch_sent tr2 u2 (pyStrip raw) "tl" "en" _ hsent
            exact ⟨raw, "tl", "en", t, rfl, htr, hne, hneq⟩
          · obtain ⟨t, htr, hne, hneq⟩ :=
              translation_branch_sent tr2 u2 (pyStrip raw) "ur" "en" _ hsent
            exact ⟨raw, "ur", "en", t, rfl, htr, hne, hneq⟩
          · exact Outcome.noConfusion hsent

/-- C6 witness: with a client returning its input unchanged, the Chinese
message `"你好"` ends `Skipped` with no reply. -/
theorem handle_message_identity_translation_witness :
    (handle_message (fun s _ _ => some s)
        ⟨some ("你好").data, "private"⟩).outcome = Outcome.Skipped
    ∧ (handle_message (fun s _ _ => some s)
        ⟨some ("你好").data, "private"⟩).reply = none := by
  have h := (handle_message_identity_translation (fun s _ _ => some s)
    (fun _ _ _ => none) ⟨some ("你好").data, "private"⟩ ⟨none, "private"⟩
    (fun s h t => rfl)).1
  exact ⟨h.1, h.2.1⟩

/-- C10: when the translation client returns no result for a message with a
detected hint, the run ends `Failed` with no translated reply, and the
user-visible error notice is sent exactly when the chat type is `group` or
`supergroup`. -/
theorem handle_message_failure_group_only
    (u : MsgUpdate) (raw : List Char) (hint : String)
    (hm : u.message_text = some raw) (h0 : ¬raw = [])
    (hg : ¬((pyStrip raw).length < 2 ∨ ['/'].isPrefixOf (pyStrip raw) = true))
    (hd : detect_language_hint (pyStrip raw) = some hint) :
    (handle_message (fun _ _ _ => none) u).outcome = Outcome.Failed
    ∧ (handle_message (fun _ _ _ => none) u).reply = none
    ∧ (handle_message (fun _ _ _ => none) u).error_reply
        = (u.chat_type == "group" || u.chat_type == "supergroup") := by
  rw [handle_message_guarded (fun _ _ _ => none) u raw hm h0 hg]
  rcases detect_language_hint_values (pyStrip raw) with h | h | h | h
  · rw [hd] at h; exact Option.noConfusion h
  · rw [h, if_pos rfl]
    exact ⟨rfl, rfl, rfl⟩
  · rw [h, if_neg (by simp), if_pos rfl]
    exact ⟨rfl, rfl, rfl⟩
  · rw [h, if_neg (by simp), if_neg (by simp), if_pos rfl]
    exact ⟨rfl, rfl, rfl⟩

/-- C10 witness: a failed translation of `"你好"` ends `Failed` with the
error notice sent in a group chat and not in a private chat. -/
theorem handle_message_failure_group_only_witness :
    (handle_message (fun _ _ _ => none)
        ⟨some ("你好").data, "group"⟩).outcome = Outcome.Failed
    ∧ (handle_message (fun _ _ _ => none)
        ⟨some ("你好").data, "group"⟩).error_reply = true
    ∧ (handle_message (fun _ _ _ => none)
        ⟨some ("你好").data, "private"⟩).error_reply = false := by
  have hg := handle_message_failure_group_only ⟨some ("你好").data, "group"⟩
    ("你好").data "zh" rfl (by decide) (by decide) (by decide)
  have hp := handle_message_failure_group_only ⟨some ("你好").data, "private"⟩
    ("你好").data "zh" rfl (by decide) (by decide) (by decide)
  refine ⟨hg.1, ?_, ?_⟩
  · rw [hg.2.2]; rfl
  · rw [hp.2.2]; rfl
